import Mathlib

/-!
Verification of the execution-and-observability substrate of the rubri
backend: the progress ledger (app/tasks/progress_tracker.py), the
streaming bridge (app/services/qgen/streaming/stream_manager_redis.py),
the websocket connection manager (app/websocket_manager.py), the
safe-execution envelope (app/services/qgen/agents/base_agent.py), the
orchestrator routing and error handling
(app/services/qgen/orchestrator/multi_agent_system.py), and the
fallback question evaluation
(app/services/qgen/agents/question_evaluation_agent.py).

Python machine-level details are embedded shallowly: a database row
becomes a Lean structure, the single row keyed by the tracked task id
becomes an Option of that structure (none = row absent), an operation
that may raise becomes a function into Except String, and a write
failure of the underlying store is an explicit boolean parameter
(dbFails) deciding whether the try-block raises.
-/

namespace Rubri

/-- String containment test mirroring the Python substring operator
(pat in s): the character list of pat is an infix of that of s. -/
def strContains (s pat : String) : Bool :=
  decide (pat.data <:+: s.data)

/-! ## Progress Ledger (app/tasks/progress_tracker.py)

The TaskStatus database row for one task id.  result_data and
error_message are opaque payloads; absent columns are none. -/

structure TaskRecord where
  task_id : String
  task_type : String
  status : String
  progress : Int
  current_step : String
  total_steps : Nat
  result_data : Option String
  error_message : Option String
  rubric_id : Option String
  started_at : Option Nat
  completed_at : Option Nat
  deriving Repr, DecidableEq

/-- The ledger as seen by one ProgressTracker: the single row with the
tracked task id, or none when no such row exists. -/
def Ledger : Type := Option TaskRecord

/-- start_task: inserts the initial row (status in_progress, progress 0,
current_step Initializing...). -/
def start_task (task_id task_type : String) (total_steps : Nat) (now : Nat) : TaskRecord :=
  { task_id := task_id
    task_type := task_type
    status := "in_progress"
    progress := 0
    current_step := "Initializing..."
    total_steps := total_steps
    result_data := none
    error_message := none
    rubric_id := none
    started_at := some now
    completed_at := none }

/-- update_status_to_in_progress: sets status to in_progress and stamps
started_at; a missing row is only logged. -/
def update_status_to_in_progress (now : Nat) (db : Ledger) : Ledger :=
  match db with
  | none => none
  | some r => some { r with status := "in_progress", started_at := some now }

/-- update_progress: stores min(progress, 100) and the new step label;
a pending status is promoted to in_progress, any other status is kept;
a missing row is only logged. -/
def update_progress (progress : Int) (current_step : String) (db : Ledger) : Ledger :=
  match db with
  | none => none
  | some r =>
    some { r with
      progress := min progress 100
      current_step := current_step
      status := if r.status = "pending" then "in_progress" else r.status }

/-- complete_task: terminal success transition; stores the result
payload and the rubric id, forces progress to 100. -/
def complete_task (result_data : Option String) (rubric_id : Option String)
    (now : Nat) (db : Ledger) : Ledger :=
  match db with
  | none => none
  | some r =>
    some { r with
      status := "completed"
      progress := 100
      current_step := "Completed"
      completed_at := some now
      result_data := result_data
      rubric_id := rubric_id }

/-- fail_task: terminal failure transition; stores the error message. -/
def fail_task (error_message : String) (now : Nat) (db : Ledger) : Ledger :=
  match db with
  | none => none
  | some r =>
    some { r with
      status := "failed"
      current_step := "Failed"
      completed_at := some now
      error_message := some error_message }

/-- Progress of the tracked row, defaulting to 0 when the row is
absent (only used to state theorems about present rows). -/
def ledgerProgress (db : Ledger) : Int :=
  match db with
  | none => 0
  | some r => r.progress

/-! Exception behaviour of the ledger writers.  Each Python method wraps
its body in try/except; dbFails = true means the database interaction
inside the try-block raises.  The except-handler rolls the session back
(leaving the row as it was) and either swallows the exception
(returning normally, modelled as Except.ok) or re-raises (Except.error). -/

/-- start_task with failure semantics: a raised database error is
logged and swallowed; the row is not inserted. -/
def start_task_op (dbFails : Bool) (task_id task_type : String)
    (total_steps now : Nat) (db : Ledger) : Except String Ledger :=
  if dbFails then .ok db
  else .ok (some (start_task task_id task_type total_steps now))

/-- update_status_to_in_progress with failure semantics: the except
handler logs, rolls back and RE-RAISES. -/
def update_status_to_in_progress_op (dbFails : Bool) (now : Nat)
    (db : Ledger) : Except String Ledger :=
  if dbFails then .error "Failed to update status"
  else .ok (update_status_to_in_progress now db)

/-- update_progress with failure semantics: logged, rolled back,
swallowed (the code comments: do not raise, continue the task). -/
def update_progress_op (dbFails : Bool) (progress : Int) (current_step : String)
    (db : Ledger) : Except String Ledger :=
  if dbFails then .ok db
  else .ok (update_progress progress current_step db)

/-- complete_task with failure semantics: logged, rolled back, swallowed. -/
def complete_task_op (dbFails : Bool) (result_data rubric_id : Option String)
    (now : Nat) (db : Ledger) : Except String Ledger :=
  if dbFails then .ok db
  else .ok (complete_task result_data rubric_id now db)

/-- fail_task with failure semantics: logged, rolled back, swallowed. -/
def fail_task_op (dbFails : Bool) (error_message : String) (now : Nat)
    (db : Ledger) : Except String Ledger :=
  if dbFails then .ok db
  else .ok (fail_task error_message now db)

/-! ## Streaming bridge
(app/services/qgen/streaming/stream_manager_redis.py)

A StreamManager instance owns a per-instance sequence counter; every
emitted event is stamped with the next counter value. -/

/-- A streaming event; sequence_id is none until emit assigns it. -/
structure StreamEvent where
  event_type : String
  agent_name : String
  data : List (String × String)
  timestamp : Nat
  sequence_id : Option Nat
  deriving Repr, DecidableEq

/-- The mutable part of a StreamManager instance. -/
structure StreamManager where
  task_id : String
  websocket_enabled : Bool
  sequence_counter : Nat
  deriving Repr, DecidableEq

/-- StreamManager constructor: the sequence counter starts at 0. -/
def StreamManager.init (task_id : String) (websocket_enabled : Bool) : StreamManager :=
  { task_id := task_id, websocket_enabled := websocket_enabled, sequence_counter := 0 }

/-- _get_next_sequence_id: increments the counter and returns its new
value (under the instance lock in the source). -/
def _get_next_sequence_id (m : StreamManager) : Nat × StreamManager :=
  (m.sequence_counter + 1, { m with sequence_counter := m.sequence_counter + 1 })

/-- emit_event_sync: stamps the event with the next sequence id, runs
the callbacks (each wrapped in try/except), and publishes to the
broker inside a try/except; callback or publish failures are logged
and swallowed, so the call always returns normally with the stamped
event and the advanced manager. -/
def emit_event_sync (publishFails : Bool) (m : StreamManager) (e : StreamEvent) :
    Except String (StreamEvent × StreamManager) :=
  let (sid, m1) := _get_next_sequence_id m
  let stamped := { e with sequence_id := some sid }
  if publishFails then .ok (stamped, m1) else .ok (stamped, m1)

/-- The sequence ids assigned by successive emit_event_sync calls on
one manager instance, one per event in the input list. -/
def emit_sequence_ids (m : StreamManager) : List StreamEvent → List Nat
  | [] => []
  | e :: rest =>
    match emit_event_sync false m e with
    | .error _ => []
    | .ok (stamped, m1) => stamped.sequence_id.getD 0 :: emit_sequence_ids m1 rest

/-! ## Connection fan-out manager (app/websocket_manager.py) -/

/-- A live websocket connection, identified abstractly. -/
abbrev Conn := Nat

/-- Association-list lookup for the active_connections dictionary. -/
def alookup (k : String) : List (String × List Nat) → Option (List Nat)
  | [] => none
  | (k1, v) :: rest => if k1 = k then some v else alookup k rest

/-- Association-list store: overwrite the binding of k, or append it. -/
def astore (k : String) (v : List Nat) : List (String × List Nat) → List (String × List Nat)
  | [] => [(k, v)]
  | (k1, v1) :: rest => if k1 = k then (k, v) :: rest else (k1, v1) :: astore k v rest

/-- ConnectionManager state: connections grouped by task id, plus the
two hardcoded connection limits from the constructor. -/
structure ConnectionManager where
  active_connections : List (String × List Nat)
  max_connections_per_task : Nat
  max_total_connections : Nat
  deriving Repr, DecidableEq

/-- The constructor values: 3 connections per task, 100 total. -/
def ConnectionManager.init : ConnectionManager :=
  { active_connections := []
    max_connections_per_task := 3
    max_total_connections := 100 }

/-- Total number of live connections across all task ids. -/
def total_connections (m : ConnectionManager) : Nat :=
  (m.active_connections.map (fun kv => kv.2.length)).sum

/-- Result of a connect attempt: the websocket is accepted, or closed
with a reason code. -/
inductive ConnectResult where
  | accepted
  | rejected (code : Nat) (reason : String)
  deriving Repr, DecidableEq

/-- connect: reject with close code 4008 when the global limit is
reached, else with 4009 when the per-task limit is reached, else
accept and add the websocket to the connection set of the task id. -/
def connect (m : ConnectionManager) (websocket : Nat) (task_id : String) :
    ConnectResult × ConnectionManager :=
  if total_connections m ≥ m.max_total_connections then
    (.rejected 4008 "Connection limit reached", m)
  else
    match alookup task_id m.active_connections with
    | some conns =>
      if conns.length ≥ m.max_connections_per_task then
        (.rejected 4009 "Task connection limit reached", m)
      else
        let newConns := if websocket ∈ conns then conns else conns ++ [websocket]
        (.accepted, { m with active_connections := astore task_id newConns m.active_connections })
    | none =>
      (.accepted, { m with active_connections := astore task_id [websocket] m.active_connections })

/-- The send loop of broadcast: send the message to every connection
in turn; a connection whose send raises is collected in the
disconnected set instead of aborting the loop.  Returns (successfully
sent, disconnected). -/
def broadcast_loop (sendFails : Nat → Bool) : List Nat → List Nat × List Nat
  | [] => ([], [])
  | c :: rest =>
    let (sent, dis) := broadcast_loop sendFails rest
    if sendFails c then (sent, c :: dis) else (c :: sent, dis)

/-- broadcast: no-op when the task id has no live connections;
otherwise sends to every connection and then discards exactly the
connections whose send failed.  Returns the list of connections that
received the message and the updated manager. -/
def broadcast (sendFails : Nat → Bool) (m : ConnectionManager) (task_id : String) :
    List Nat × ConnectionManager :=
  match alookup task_id m.active_connections with
  | none => ([], m)
  | some conns =>
    if conns.length = 0 then ([], m)
    else
      let (sent, dis) := broadcast_loop sendFails conns
      let remaining := conns.filter (fun c => !(dis.contains c))
      (sent, { m with active_connections := astore task_id remaining m.active_connections })

/-! ## Workflow state (app/services/qgen/models/schemas.py) -/

/-- The processing_stage enum. -/
inductive ProcessingStage where
  | INITIALIZED
  | SKILLS_EXTRACTED
  | QUESTIONS_GENERATED
  | QUESTIONS_EVALUATED
  | RESPONSES_GENERATED
  | REPORT_ASSEMBLED
  | COMPLETED
  | ERROR
  deriving Repr, DecidableEq

/-- The input_scenario enum. -/
inductive InputScenario where
  | RESUME_ONLY
  | JD_ONLY
  | BOTH
  deriving Repr, DecidableEq

/-- LLM configuration (only the fields the envelope records). -/
structure LLMConfig where
  provider : String
  model : String
  deriving Repr, DecidableEq

/-- An ExtractedSkill record (fields used by the fallback evaluation). -/
structure ExtractedSkill where
  skill_name : String
  category : String
  evidence_from_text : String
  experience_level : String
  confidence_score : Nat
  context : String
  specific_technologies : List String
  deriving Repr, DecidableEq

/-- A TechnicalQuestion record (fields used by the fallback evaluation). -/
structure TechnicalQuestion where
  question_id : String
  question_text : String
  question_type : String
  difficulty_level : Nat
  estimated_time_minutes : Nat
  targeted_skill : String
  rationale : String
  tags : List String
  deriving Repr, DecidableEq

/-- A QuestionEvaluation record. -/
structure QuestionEvaluation where
  question_id : String
  technical_depth_score : Nat
  relevance_score : Nat
  difficulty_appropriateness : Nat
  non_generic_score : Nat
  overall_quality : Nat
  feedback : String
  approved : Bool
  deriving Repr, DecidableEq

/-- Metadata attached to every AgentResult by _record_result. -/
structure AgentMetadata where
  llm_provider : String
  llm_model : String
  timestamp : Nat
  deriving Repr, DecidableEq

/-- One agent execution record, appended by _record_result. -/
structure AgentResult where
  agent_name : String
  execution_time : Nat
  success : Bool
  output_data : List (String × String)
  error_message : Option String
  metadata : AgentMetadata
  deriving Repr, DecidableEq

/-- The MultiAgentInterviewState TypedDict.  Collections whose inner
structure no claim inspects are carried abstractly; messages carry
their content strings. -/
structure MultiAgentInterviewState where
  llm_config : LLMConfig
  resume_text : String
  job_description : String
  position_title : String
  input_scenario : InputScenario
  processing_stage : ProcessingStage
  current_agent : Option String
  extracted_skills : List ExtractedSkill
  skill_categories : List String
  generated_questions : List TechnicalQuestion
  question_evaluations : List QuestionEvaluation
  approved_questions : List TechnicalQuestion
  expected_responses : List String
  skill_assessments : List String
  interview_sections : List String
  final_evaluation : Option String
  agent_results : List AgentResult
  messages : List String
  errors : List String
  deriving Repr, DecidableEq

/-! ## Safe-execution envelope
(app/services/qgen/agents/base_agent.py, class BaseAgent) -/

/-- Python truthiness of a named state field, as tested by
_validate_input (field not in state or not state[field]); a name that
is not a state key is falsy. -/
def field_truthy (s : MultiAgentInterviewState) (field : String) : Bool :=
  match field with
  | "llm_config" => true
  | "resume_text" => s.resume_text ≠ ""
  | "job_description" => s.job_description ≠ ""
  | "position_title" => s.position_title ≠ ""
  | "input_scenario" => true
  | "processing_stage" => true
  | "current_agent" => s.current_agent.getD "" ≠ ""
  | "extracted_skills" => !s.extracted_skills.isEmpty
  | "skill_categories" => !s.skill_categories.isEmpty
  | "generated_questions" => !s.generated_questions.isEmpty
  | "question_evaluations" => !s.question_evaluations.isEmpty
  | "approved_questions" => !s.approved_questions.isEmpty
  | "expected_responses" => !s.expected_responses.isEmpty
  | "skill_assessments" => !s.skill_assessments.isEmpty
  | "interview_sections" => !s.interview_sections.isEmpty
  | "final_evaluation" => s.final_evaluation.isSome
  | "agent_results" => !s.agent_results.isEmpty
  | "messages" => !s.messages.isEmpty
  | "errors" => !s.errors.isEmpty
  | _ => false

/-- _log_error: appends the bracketed error line to the state error
list (logging and stream emission have no state effect). -/
def _log_error (agent_name : String) (error : String)
    (s : MultiAgentInterviewState) : MultiAgentInterviewState :=
  { s with errors := s.errors ++ ["[" ++ agent_name ++ "] ERROR: " ++ error] }

/-- _validate_input: collects the required fields that are missing or
falsy; when any are missing, logs the error into the state and
reports failure. -/
def _validate_input (agent_name : String) (s : MultiAgentInterviewState)
    (required_fields : List String) : Bool × MultiAgentInterviewState :=
  let missing_fields := required_fields.filter (fun f => !(field_truthy s f))
  if missing_fields.isEmpty then (true, s)
  else
    (false, _log_error agent_name
      ("Missing required fields: " ++ String.intercalate ", " missing_fields) s)

/-- _record_result: appends an AgentResult and sets current_agent to
the agent name on success, to none on failure. -/
def _record_result (agent_name : String) (cfg : LLMConfig) (now : Nat)
    (s : MultiAgentInterviewState) (success : Bool)
    (output_data : List (String × String)) (error_message : Option String)
    (execution_time : Nat) : MultiAgentInterviewState :=
  let result : AgentResult :=
    { agent_name := agent_name
      execution_time := execution_time
      success := success
      output_data := output_data
      error_message := error_message
      metadata := { llm_provider := cfg.provider, llm_model := cfg.model, timestamp := now } }
  { s with
    agent_results := s.agent_results ++ [result]
    current_agent := if success then some agent_name else none }

/-- A stage body: returns the (in-place mutated) state together with
the message of the exception it raised, if it raised one.  Python
mutates the state object in place, so the partially mutated state is
what the except-handler of the envelope sees. -/
def StageBody : Type := MultiAgentInterviewState → MultiAgentInterviewState × Option String

/-- _safe_execute: validates the required fields (raising a
ValueError that the handler converts into a failure record), runs the
stage body, and on success appends a successful AgentResult; any
exception is caught, logged into the error list, recorded as a failed
AgentResult, and the state is returned normally — the result is
Except.ok in every case, mirroring that the method never re-raises. -/
def _safe_execute (agent_name : String) (cfg : LLMConfig) (now : Nat)
    (execution_func : StageBody) (required_fields : List String)
    (execution_time : Nat) (s : MultiAgentInterviewState) :
    Except String MultiAgentInterviewState :=
  let handle := fun (exnMsg : String) (sMut : MultiAgentInterviewState) =>
    let error_message := agent_name ++ " execution failed: " ++ exnMsg
    let s1 := _log_error agent_name error_message sMut
    Except.ok (_record_result agent_name cfg now s1 false [] (some error_message) execution_time)
  let run := fun (sv : MultiAgentInterviewState) =>
    match execution_func sv with
    | (s1, some exnMsg) => handle exnMsg s1
    | (s1, none) =>
      Except.ok (_record_result agent_name cfg now s1 true [] none execution_time)
  if required_fields.isEmpty then run s
  else
    match _validate_input agent_name s required_fields with
    | (false, sv) => handle ("Input validation failed for " ++ agent_name) sv
    | (true, sv) => run sv

/-! ## Orchestrator routing and error handling
(app/services/qgen/orchestrator/multi_agent_system.py) -/

/-- _route_from_skill_extraction: error stage or any unexpected stage
routes to the error handler; the stage success marker routes to the
next stage of the fixed sequence. -/
def _route_from_skill_extraction (state : MultiAgentInterviewState) : String :=
  if state.processing_stage = ProcessingStage.ERROR then "error"
  else if state.processing_stage = ProcessingStage.SKILLS_EXTRACTED then "generate_questions"
  else "error"

/-- _route_from_question_generation. -/
def _route_from_question_generation (state : MultiAgentInterviewState) : String :=
  if state.processing_stage = ProcessingStage.ERROR then "error"
  else if state.processing_stage = ProcessingStage.QUESTIONS_GENERATED then "evaluate_questions"
  else "error"

/-- _route_from_question_evaluation. -/
def _route_from_question_evaluation (state : MultiAgentInterviewState) : String :=
  if state.processing_stage = ProcessingStage.ERROR then "error"
  else if state.processing_stage = ProcessingStage.QUESTIONS_EVALUATED then "generate_responses"
  else "error"

/-- _route_from_response_generation. -/
def _route_from_response_generation (state : MultiAgentInterviewState) : String :=
  if state.processing_stage = ProcessingStage.ERROR then "error"
  else if state.processing_stage = ProcessingStage.RESPONSES_GENERATED then "assemble_report"
  else "error"

/-- _route_from_report_assembly: the last routing function; its
success marker routes to the completed terminal (the END edge). -/
def _route_from_report_assembly (state : MultiAgentInterviewState) : String :=
  if state.processing_stage = ProcessingStage.ERROR then "error"
  else if state.processing_stage = ProcessingStage.COMPLETED then "complete"
  else "error"

/-- The enumerated error lines built by the _handle_error loop
(for i, error in enumerate(errors, 1)), with the counter starting at
the given index. -/
def error_lines (i : Nat) : List String → String
  | [] => ""
  | e :: rest => "  " ++ toString i ++ ". " ++ e ++ "\n" ++ error_lines (i + 1) rest

/-- The single aggregated message _handle_error compiles from the
accumulated error list. -/
def aggregated_error_message (errors : List String) : String :=
  "❌ Multi-agent interview generation failed:\n" ++ error_lines 1 errors
    ++ "\nPlease check your inputs and try again."

/-- _handle_error: appends the aggregated error message to the
message list and moves the state to the absorbing ERROR stage. -/
def _handle_error (s : MultiAgentInterviewState) : MultiAgentInterviewState :=
  { s with
    messages := s.messages ++ [aggregated_error_message s.errors]
    processing_stage := ProcessingStage.ERROR }

/-- The failure-diagnosis loop of _create_error_response: walk the
ordered AgentResult history, remembering the name of the latest
successful agent, and stop (break) at the first failed one.  Returns
(last_successful_agent, failed_agent). -/
def find_failure_point (last_successful : Option String) :
    List AgentResult → Option String × Option String
  | [] => (last_successful, none)
  | r :: rest =>
    if r.success then find_failure_point (some r.agent_name) rest
    else (last_successful, some r.agent_name)

/-- The fields of the dictionary _create_error_response returns. -/
structure ErrorResponse where
  success : Bool
  processing_time : Nat
  stage_reached : ProcessingStage
  last_successful_agent : Option String
  failed_agent : Option String
  errors : List String
  messages : List String
  skills_extracted : Nat
  questions_generated : Nat
  questions_approved : Nat
  deriving Repr, DecidableEq

/-- _create_error_response: the terminal failure payload, carrying
the error list and the failure point derived from the AgentResult
history. -/
def _create_error_response (result : MultiAgentInterviewState)
    (total_time : Nat) : ErrorResponse :=
  let fp := find_failure_point none result.agent_results
  { success := false
    processing_time := total_time
    stage_reached := result.processing_stage
    last_successful_agent := fp.1
    failed_agent := fp.2
    errors := result.errors
    messages := result.messages
    skills_extracted := result.extracted_skills.length
    questions_generated := result.generated_questions.length
    questions_approved := result.approved_questions.length }

/-! ## Fallback question evaluation
(app/services/qgen/agents/question_evaluation_agent.py) -/

/-- Python str.split(): split on whitespace runs, dropping empty
pieces. -/
def pySplit (s : String) : List String :=
  (s.split (fun c => c.isWhitespace)).filter (fun w => w ≠ "")

/-- _create_fallback_evaluation: the deterministic keyword-heuristic
evaluation used when the model evaluation of a question fails.  Each
sub-score defaults to 3 and is bumped to 4 by its keyword heuristic;
overall quality is the integer (floor) division of their sum by 4 and
the question is approved when that is at least 3. -/
def _create_fallback_evaluation (question : TechnicalQuestion)
    (skill : ExtractedSkill) : QuestionEvaluation :=
  let text := question.question_text.toLower
  let technical_depth : Nat :=
    if ["derive", "mathematical", "algorithm", "complexity", "optimize"].any
        (fun word => strContains text word) then 4 else 3
  let relevance : Nat :=
    if strContains text skill.skill_name.toLower then 4 else 3
  let difficulty_appropriateness : Nat :=
    if question.difficulty_level ≤ skill.confidence_score then 4 else 3
  let non_generic : Nat :=
    if ((pySplit skill.context.toLower).filter (fun w => w.length > 3)).any
        (fun context_word => strContains text context_word) then 4 else 3
  let overall := (technical_depth + relevance + difficulty_appropriateness + non_generic) / 4
  { question_id := question.question_id
    technical_depth_score := technical_depth
    relevance_score := relevance
    difficulty_appropriateness := difficulty_appropriateness
    non_generic_score := non_generic
    overall_quality := overall
    feedback := "Fallback evaluation - LLM evaluation failed"
    approved := overall ≥ 3 }

/-! ## Theorems -/

/-- C1 counterexample: update_progress does not clamp the new value to
the interval from the old progress; a ledger whose progress reached 50
stores 30 after a later update_progress(30) call, so an update can
lower the stored progress. -/
theorem update_progress_can_lower_progress :
    ledgerProgress (update_progress 50 "step A"
      (some (start_task "task-1" "rubric_generation" 5 0))) = 50 ∧
    ledgerProgress (update_progress 30 "step B" (update_progress 50 "step A"
      (some (start_task "task-1" "rubric_generation" 5 0)))) = 30 :=
  ⟨rfl, rfl⟩

/-- C1 amended: each update stores min(progress, 100) — clamped from
above by 100 only — so the stored progress never exceeds 100, and the
stored value is non-decreasing exactly when every supplied progress
value is at least the currently stored one. -/
theorem update_progress_clamped_above (r : TaskRecord) (p : Int) (step : String)
    (h100 : r.progress ≤ 100) (hmono : r.progress ≤ p) :
    ledgerProgress (update_progress p step (some r)) = min p 100 ∧
    r.progress ≤ ledgerProgress (update_progress p step (some r)) ∧
    ledgerProgress (update_progress p step (some r)) ≤ 100 := by
  refine ⟨rfl, ?_, ?_⟩
  · simp only [ledgerProgress, update_progress]
    omega
  · simp only [ledgerProgress, update_progress]
    omega

/-- Witness for the amended C1 theorem at a concrete row. -/
theorem update_progress_clamped_above_witness :
    ledgerProgress (update_progress 70 "s"
      (some (start_task "task-1" "rubric_generation" 5 0))) = min 70 100 ∧
    (start_task "task-1" "rubric_generation" 5 0).progress ≤
      ledgerProgress (update_progress 70 "s"
        (some (start_task "task-1" "rubric_generation" 5 0))) ∧
    ledgerProgress (update_progress 70 "s"
      (some (start_task "task-1" "rubric_generation" 5 0))) ≤ 100 :=
  update_progress_clamped_above (start_task "task-1" "rubric_generation" 5 0)
    70 "s" (by decide) (by decide)

/-- C2 counterexample: a subsequent update_progress call on a record
completed with progress 100 is not a no-op — it overwrites the stored
progress (100 becomes 50) and the step label of the terminal record. -/
theorem update_progress_mutates_terminal_record :
    ledgerProgress (complete_task (some "report") none 10
      (some (start_task "task-1" "rubric_generation" 5 0))) = 100 ∧
    ledgerProgress (update_progress 50 "late step"
      (complete_task (some "report") none 10
        (some (start_task "task-1" "rubric_generation" 5 0)))) = 50 :=
  ⟨rfl, rfl⟩

/-- C2 amended: on a row where neither terminal field is set,
complete_task stores the result payload and leaves error_message
unset, and fail_task stores the error message and leaves result_data
unset — so a single terminal transition with a non-empty payload makes
exactly one of the two fields non-empty.  A later update_progress call
keeps the terminal status (only a pending status is overwritten) and
the terminal fields, but still overwrites progress and current_step —
it is not a no-op. -/
theorem terminal_transition_fields (r : TaskRecord) (d : String)
    (rubric : Option String) (msg : String) (t : Nat) (p : Int) (step : String)
    (herr : r.error_message = none) (hres : r.result_data = none) :
    (∀ r1, complete_task (some d) rubric t (some r) = some r1 →
      r1.status = "completed" ∧ r1.progress = 100 ∧
      r1.result_data = some d ∧ r1.error_message = none) ∧
    (∀ r1, fail_task msg t (some r) = some r1 →
      r1.status = "failed" ∧ r1.error_message = some msg ∧ r1.result_data = none) ∧
    (∀ r1 r2, complete_task (some d) rubric t (some r) = some r1 →
      update_progress p step (some r1) = some r2 →
      r2.status = "completed" ∧ r2.result_data = some d ∧
      r2.error_message = none ∧ r2.progress = min p 100 ∧ r2.current_step = step) ∧
    (∀ r1 r2, fail_task msg t (some r) = some r1 →
      update_progress p step (some r1) = some r2 →
      r2.status = "failed" ∧ r2.error_message = some msg ∧
      r2.result_data = none ∧ r2.progress = min p 100 ∧ r2.current_step = step) := by
  refine ⟨?_, ?_, ?_, ?_⟩
  · intro r1 h
    simp only [complete_task] at h
    injection h with h
    subst h
    simp [herr]
  · intro r1 h
    simp only [fail_task] at h
    injection h with h
    subst h
    simp [hres]
  · intro r1 r2 h1 h2
    simp only [complete_task] at h1
    injection h1 with h1
    subst h1
    simp only [update_progress] at h2
    injection h2 with h2
    subst h2
    simp [herr]
  · intro r1 r2 h1 h2
    simp only [fail_task] at h1
    injection h1 with h1
    subst h1
    simp only [update_progress] at h2
    injection h2 with h2
    subst h2
    simp [hres]

/-- Witness for the amended C2 theorem at a concrete row. -/
theorem terminal_transition_fields_witness :
    (∀ r1, complete_task (some "report") none 10
        (some (start_task "task-1" "rubric_generation" 5 0)) = some r1 →
      r1.status = "completed" ∧ r1.progress = 100 ∧
      r1.result_data = some "report" ∧ r1.error_message = none) ∧
    (∀ r1, fail_task "boom" 10
        (some (start_task "task-1" "rubric_generation" 5 0)) = some r1 →
      r1.status = "failed" ∧ r1.error_message = some "boom" ∧ r1.result_data = none) ∧
    (∀ r1 r2, complete_task (some "report") none 10
        (some (start_task "task-1" "rubric_generation" 5 0)) = some r1 →
      update_progress 50 "late" (some r1) = some r2 →
      r2.status = "completed" ∧ r2.result_data = some "report" ∧
      r2.error_message = none ∧ r2.progress = min 50 100 ∧ r2.current_step = "late") ∧
    (∀ r1 r2, fail_task "boom" 10
        (some (start_task "task-1" "rubric_generation" 5 0)) = some r1 →
      update_progress 50 "late" (some r1) = some r2 →
      r2.status = "failed" ∧ r2.error_message = some "boom" ∧
      r2.result_data = none ∧ r2.progress = min 50 100 ∧ r2.current_step = "late") :=
  terminal_transition_fields (start_task "task-1" "rubric_generation" 5 0)
    "report" none "boom" 10 50 "late" rfl rfl

/-- C5 counterexample: the pending-to-in-progress status writer does
not swallow a write failure — its except-handler re-raises, so a
broken write of that one operation does propagate. -/
theorem update_status_write_failure_raises :
    update_status_to_in_progress_op true 3
      (some (start_task "task-1" "rubric_generation" 5 0)) =
      Except.error "Failed to update status" := rfl

/-- C5 amended: every ledger write and broker publish except the
pending-to-in-progress status update swallows an underlying failure
and returns normally; update_status_to_in_progress alone logs, rolls
back and re-raises when its write fails. -/
theorem ledger_write_failures_swallowed (dbFails : Bool) (task_id task_type : String)
    (total_steps now : Nat) (p : Int) (step msg : String)
    (d rubric : Option String) (db : Ledger) (m : StreamManager) (e : StreamEvent) :
    (start_task_op dbFails task_id task_type total_steps now db).isOk = true ∧
    (update_progress_op dbFails p step db).isOk = true ∧
    (complete_task_op dbFails d rubric now db).isOk = true ∧
    (fail_task_op dbFails msg now db).isOk = true ∧
    (emit_event_sync dbFails m e).isOk = true ∧
    update_status_to_in_progress_op true now db = Except.error "Failed to update status" := by
  cases dbFails <;>
    simp [start_task_op, update_progress_op, complete_task_op, fail_task_op,
      emit_event_sync, update_status_to_in_progress_op, Except.isOk, Except.toBool]

/-- A concrete LLM configuration used as a test fixture. -/
def cfg0 : LLMConfig := { provider := "openai", model := "gpt-4.1" }

/-- A concrete freshly initialized workflow state (the value
create_initial_state builds for a resume-and-jd run) used as a test
fixture. -/
def state0 : MultiAgentInterviewState :=
  { llm_config := cfg0
    resume_text := "resume text"
    job_description := "jd text"
    position_title := "Engineer"
    input_scenario := InputScenario.BOTH
    processing_stage := ProcessingStage.INITIALIZED
    current_agent := none
    extracted_skills := []
    skill_categories := []
    generated_questions := []
    question_evaluations := []
    approved_questions := []
    expected_responses := []
    skill_assessments := []
    interview_sections := []
    final_evaluation := none
    agent_results := []
    messages := []
    errors := [] }

/-- C3 counterexample: running _safe_execute on the initial state with
a stage body that raises leaves the processing stage at INITIALIZED —
the envelope records the failure but does not move the stage marker to
ERROR (the stage bodies set the marker in their own handlers). -/
theorem safe_execute_does_not_set_error_stage :
    Except.map (fun s => s.processing_stage)
      (_safe_execute "SkillExtractionAgent" cfg0 7 (fun s => (s, some "boom")) [] 1 state0) =
      Except.ok ProcessingStage.INITIALIZED ∧
    ProcessingStage.INITIALIZED ≠ ProcessingStage.ERROR :=
  ⟨rfl, by decide⟩

/-- C3 amended: for every stage body that raises, _safe_execute
returns normally (never re-raises) with a state whose appended
AgentResult has success = false and a non-empty error message, whose
error list ends with that message; the processing stage is left as the
body left it (not forced to the error marker) and current_agent is
cleared. -/
theorem safe_execute_swallows_exceptions (agent : String) (cfg : LLMConfig)
    (now t : Nat) (f : MultiAgentInterviewState → MultiAgentInterviewState)
    (m : String) (s : MultiAgentInterviewState) :
    ∃ s1, _safe_execute agent cfg now (fun st => (f st, some m)) [] t s = Except.ok s1 ∧
      s1.agent_results.getLast? = some
        { agent_name := agent
          execution_time := t
          success := false
          output_data := []
          error_message := some (agent ++ " execution failed: " ++ m)
          metadata := { llm_provider := cfg.provider, llm_model := cfg.model, timestamp := now } } ∧
      agent ++ " execution failed: " ++ m ≠ "" ∧
      s1.errors = (f s).errors ++
        ["[" ++ agent ++ "] ERROR: " ++ (agent ++ " execution failed: " ++ m)] ∧
      s1.processing_stage = (f s).processing_stage ∧
      s1.current_agent = none := by
  refine ⟨_, rfl, ?_, ?_, rfl, rfl, rfl⟩
  · simp [_safe_execute, _record_result, _log_error, List.getLast?_concat]
  · intro h
    have hl := congrArg String.length h
    simp [String.length_append] at hl
    exact absurd hl.1.2 (by decide)

/-- C4: routing correctness of the five conditional edges — a state
carrying the error marker routes every stage to the error handler, and
a state carrying the success marker of stage i routes to stage i+1 of the
fixed sequence, with the last stage routing to the completed
terminal. -/
theorem orchestrator_routing (s : MultiAgentInterviewState) :
    (s.processing_stage = ProcessingStage.ERROR →
      _route_from_skill_extraction s = "error" ∧
      _route_from_question_generation s = "error" ∧
      _route_from_question_evaluation s = "error" ∧
      _route_from_response_generation s = "error" ∧
      _route_from_report_assembly s = "error") ∧
    (s.processing_stage = ProcessingStage.SKILLS_EXTRACTED →
      _route_from_skill_extraction s = "generate_questions") ∧
    (s.processing_stage = ProcessingStage.QUESTIONS_GENERATED →
      _route_from_question_generation s = "evaluate_questions") ∧
    (s.processing_stage = ProcessingStage.QUESTIONS_EVALUATED →
      _route_from_question_evaluation s = "generate_responses") ∧
    (s.processing_stage = ProcessingStage.RESPONSES_GENERATED →
      _route_from_response_generation s = "assemble_report") ∧
    (s.processing_stage = ProcessingStage.COMPLETED →
      _route_from_report_assembly s = "complete") := by
  refine ⟨?_, ?_, ?_, ?_, ?_, ?_⟩ <;> intro h <;>
    simp [_route_from_skill_extraction, _route_from_question_generation,
      _route_from_question_evaluation, _route_from_response_generation,
      _route_from_report_assembly, h]

/-- Witness for the routing theorem at concrete states. -/
theorem orchestrator_routing_witness :
    _route_from_skill_extraction
      { state0 with processing_stage := ProcessingStage.ERROR } = "error" ∧
    _route_from_skill_extraction
      { state0 with processing_stage := ProcessingStage.SKILLS_EXTRACTED } = "generate_questions" ∧
    _route_from_report_assembly
      { state0 with processing_stage := ProcessingStage.COMPLETED } = "complete" := by
  refine ⟨?_, ?_, ?_⟩
  · exact ((orchestrator_routing _).1 rfl).1
  · exact (orchestrator_routing _).2.1 rfl
  · exact (orchestrator_routing _).2.2.2.2.2 rfl

/-- The ids assigned by successive emits starting from counter c are
the consecutive naturals c+1, c+2, ... -/
theorem emit_sequence_ids_eq_range (evs : List StreamEvent) :
    ∀ m : StreamManager,
      emit_sequence_ids m evs = List.range' (m.sequence_counter + 1) evs.length := by
  induction evs with
  | nil => intro m; rfl
  | cons e rest ih =>
    intro m
    simp [emit_sequence_ids, emit_event_sync, _get_next_sequence_id, ih,
      List.range'_succ]

/-- C9: on one StreamManager instance the assigned sequence_id values
are exactly 1, 2, ..., n over n emit calls — strictly monotonically
increasing, starting at 1 and incrementing by 1 per event. -/
theorem stream_sequence_ids_strictly_increasing (task : String) (ws : Bool)
    (evs : List StreamEvent) :
    emit_sequence_ids (StreamManager.init task ws) evs = List.range' 1 evs.length ∧
    List.Pairwise (· < ·) (emit_sequence_ids (StreamManager.init task ws) evs) := by
  have h := emit_sequence_ids_eq_range evs (StreamManager.init task ws)
  refine ⟨by simpa [StreamManager.init] using h, ?_⟩
  rw [h]
  exact List.pairwise_lt_range' _ _

/-- The broadcast send loop partitions the connection set into the
healthy connections (in order) and the failing ones. -/
theorem broadcast_loop_eq (sendFails : Nat → Bool) (l : List Nat) :
    broadcast_loop sendFails l =
      (l.filter (fun c => !sendFails c), l.filter sendFails) := by
  induction l with
  | nil => rfl
  | cons c rest ih =>
    simp only [broadcast_loop, ih, List.filter_cons]
    cases h : sendFails c <;> simp [h]

/-- Looking up a key just stored finds the stored value. -/
theorem astore_alookup (k : String) (v : List Nat) (l : List (String × List Nat)) :
    alookup k (astore k v l) = some v := by
  induction l with
  | nil => simp [astore, alookup]
  | cons kv rest ih =>
    obtain ⟨k1, v1⟩ := kv
    by_cases h : k1 = k <;> simp [astore, alookup, h, ih]

/-- C6: when a task id has live connections among which some send
fails and some succeeds, broadcast delivers to exactly the healthy
connections and afterwards the connection set of the task holds exactly the
healthy connections — only the failing ones were removed. -/
theorem broadcast_partial_failure_isolation (sendFails : Nat → Bool)
    (m : ConnectionManager) (task_id : String) (conns : List Nat)
    (hlook : alookup task_id m.active_connections = some conns)
    (hbad : ∃ c ∈ conns, sendFails c = true)
    (hgood : ∃ c ∈ conns, sendFails c = false) :
    (broadcast sendFails m task_id).1 = conns.filter (fun c => !sendFails c) ∧
    alookup task_id (broadcast sendFails m task_id).2.active_connections =
      some (conns.filter (fun c => !sendFails c)) := by
  obtain ⟨b, hb, hbf⟩ := hbad
  have hne : ¬(conns.length = 0) := by
    intro h0
    rw [List.length_eq_zero] at h0
    subst h0
    exact absurd hb (List.not_mem_nil b)
  have hremove : conns.filter (fun c => !((conns.filter sendFails).contains c)) =
      conns.filter (fun c => !sendFails c) := by
    refine List.filter_congr ?_
    intro c hc
    by_cases hf : sendFails c = true <;>
      simp [List.elem_iff, List.mem_filter, hc, hf]
  simp only [broadcast, hlook, hne, if_false, broadcast_loop_eq, hremove]
  exact ⟨by simp, astore_alookup _ _ _⟩

/-- A concrete manager with two live connections for one task. -/
def mgr0 : ConnectionManager :=
  { active_connections := [("task-1", [1, 2])]
    max_connections_per_task := 3
    max_total_connections := 100 }

/-- Witness for the broadcast isolation theorem: connection 1 fails,
connection 2 is healthy; 2 receives the message and only 1 is
removed. -/
theorem broadcast_partial_failure_isolation_witness :
    (broadcast (fun c => decide (c = 1)) mgr0 "task-1").1 =
      [1, 2].filter (fun c => !(decide (c = 1))) ∧
    alookup "task-1" (broadcast (fun c => decide (c = 1)) mgr0 "task-1").2.active_connections =
      some ([1, 2].filter (fun c => !(decide (c = 1)))) :=
  broadcast_partial_failure_isolation (fun c => decide (c = 1)) mgr0 "task-1" [1, 2]
    rfl ⟨1, by decide, by decide⟩ ⟨2, by decide, by decide⟩

/-- C8: a connect attempt is rejected with close code 4008 when the
global cap (100) is reached, rejected with close code 4009 when the
per-task cap (3) is reached, and otherwise accepted and registered in
the connection set of the task. -/
theorem connect_cap_enforcement (m : ConnectionManager) (ws : Nat) (task_id : String)
    (hg : m.max_total_connections = 100) (hp : m.max_connections_per_task = 3) :
    (total_connections m ≥ 100 →
      connect m ws task_id = (ConnectResult.rejected 4008 "Connection limit reached", m)) ∧
    (total_connections m < 100 →
      ∀ conns, alookup task_id m.active_connections = some conns → conns.length ≥ 3 →
        connect m ws task_id = (ConnectResult.rejected 4009 "Task connection limit reached", m)) ∧
    (total_connections m < 100 → alookup task_id m.active_connections = none →
      (connect m ws task_id).1 = ConnectResult.accepted ∧
      alookup task_id (connect m ws task_id).2.active_connections = some [ws]) ∧
    (total_connections m < 100 →
      ∀ conns, alookup task_id m.active_connections = some conns → conns.length < 3 →
        (connect m ws task_id).1 = ConnectResult.accepted ∧
        ∃ l, alookup task_id (connect m ws task_id).2.active_connections = some l ∧ ws ∈ l) := by
  refine ⟨?_, ?_, ?_, ?_⟩
  · intro htot
    simp only [connect, hg, htot, if_true]
  · intro htot conns hlook hlen
    have hnot : ¬(total_connections m ≥ m.max_total_connections) := by omega
    simp only [connect, hnot, if_false, hlook, hp, hlen, if_true]
  · intro htot hlook
    have hnot : ¬(total_connections m ≥ m.max_total_connections) := by omega
    simp only [connect, hnot, if_false, hlook]
    exact ⟨by simp, astore_alookup _ _ _⟩
  · intro htot conns hlook hlen
    have hnot : ¬(total_connections m ≥ m.max_total_connections) := by omega
    have hnot2 : ¬(conns.length ≥ m.max_connections_per_task) := by omega
    simp only [connect, hnot, if_false, hlook, hnot2]
    refine ⟨by simp, if hmem : ws ∈ conns then ?_ else ?_⟩
    · exact ⟨conns, by simp [hmem, astore_alookup], hmem⟩
    · exact ⟨conns ++ [ws], by simp [hmem, astore_alookup], by simp⟩

/-- A concrete manager whose 100-connection global cap is reached. -/
def mgrFull : ConnectionManager :=
  { active_connections := [("task-a", List.range 100)]
    max_connections_per_task := 3
    max_total_connections := 100 }

/-- A concrete manager whose per-task cap of 3 is reached for task-1. -/
def mgrTaskFull : ConnectionManager :=
  { active_connections := [("task-1", [1, 2, 3])]
    max_connections_per_task := 3
    max_total_connections := 100 }

/-- Witness for the connect cap theorem: the three behaviours at
concrete managers — global rejection, per-task rejection, and
acceptance with registration. -/
theorem connect_cap_enforcement_witness :
    connect mgrFull 500 "task-1" =
      (ConnectResult.rejected 4008 "Connection limit reached", mgrFull) ∧
    connect mgrTaskFull 500 "task-1" =
      (ConnectResult.rejected 4009 "Task connection limit reached", mgrTaskFull) ∧
    ((connect mgr0 500 "task-1").1 = ConnectResult.accepted ∧
      ∃ l, alookup "task-1" (connect mgr0 500 "task-1").2.active_connections = some l ∧
        (500 : Nat) ∈ l) := by
  refine ⟨?_, ?_, ?_⟩
  · exact (connect_cap_enforcement mgrFull 500 "task-1" rfl rfl).1 (by decide)
  · exact (connect_cap_enforcement mgrTaskFull 500 "task-1" rfl rfl).2.1 (by decide)
      [1, 2, 3] rfl (by decide)
  · exact ((connect_cap_enforcement mgr0 500 "task-1" rfl rfl).2.2.2 (by decide)
      [1, 2] rfl (by decide))

/-- Every accumulated error appears inside the enumerated error lines
(whatever index the enumeration starts at). -/
theorem error_lines_contains (l : List String) :
    ∀ (i : Nat) (e : String), e ∈ l → e.data <:+: (error_lines i l).data := by
  induction l with
  | nil =>
    intro i e he
    exact absurd he (List.not_mem_nil e)
  | cons x rest ih =>
    intro i e he
    rcases List.mem_cons.mp he with rfl | hmem
    · refine ⟨("  " ++ toString i ++ ". ").data, ("\n" ++ error_lines (i + 1) rest).data, ?_⟩
      simp [error_lines, String.data_append]
    · obtain ⟨s, t, hst⟩ := ih (i + 1) e hmem
      refine ⟨("  " ++ toString i ++ ". " ++ x ++ "\n").data ++ s, t, ?_⟩
      simp [error_lines, String.data_append, ← hst]

/-- Every accumulated error appears inside the aggregated error
message compiled by _handle_error. -/
theorem aggregated_error_message_contains (errors : List String) (e : String)
    (he : e ∈ errors) : e.data <:+: (aggregated_error_message errors).data := by
  obtain ⟨s, t, hst⟩ := error_lines_contains errors 1 e he
  refine ⟨("❌ Multi-agent interview generation failed:\n").data ++ s,
    t ++ ("\nPlease check your inputs and try again.").data, ?_⟩
  simp [aggregated_error_message, String.data_append, ← hst]

/-- The failure-diagnosis loop on a history that is a block of
successes followed by a first failure returns the last success of the
block (or the accumulator when the block is empty) and the first
failing agent. -/
theorem find_failure_point_eq (pre : List AgentResult) :
    ∀ (acc : Option String) (f : AgentResult) (post : List AgentResult),
      (∀ r ∈ pre, r.success = true) → f.success = false →
      find_failure_point acc (pre ++ f :: post) =
        (pre.getLast?.elim acc (fun r => some r.agent_name), some f.agent_name) := by
  induction pre with
  | nil =>
    intro acc f post _ hf
    simp [find_failure_point, hf]
  | cons r pre ih =>
    intro acc f post hpre hf
    have hr : r.success = true := hpre r (List.mem_cons_self r pre)
    cases pre with
    | nil => simp [find_failure_point, hr, hf]
    | cons r2 pre2 =>
      have step := ih (some r.agent_name) f post
        (fun x hx => hpre x (List.mem_cons_of_mem r hx)) hf
      have unfold1 : ∀ (a : Option String) (x : AgentResult) (L : List AgentResult),
          find_failure_point a (x :: L) =
            if x.success then find_failure_point (some x.agent_name) L
            else (a, some x.agent_name) := fun a x L => rfl
      rw [List.cons_append, unfold1, if_pos hr, step]
      cases h2 : (r2 :: pre2).getLast? with
      | none => simp at h2
      | some x => simp [List.getLast?_cons_cons, h2]

/-- C7: termination in the error state compiles the accumulated error
list into one aggregated message (containing every accumulated error)
appended to the message list, moves the stage to ERROR, and the
failure payload names the first failed agent and the last agent that
succeeded before it, from the ordered AgentResult history. -/
theorem error_state_aggregation (s : MultiAgentInterviewState) (t : Nat)
    (pre : List AgentResult) (f : AgentResult) (post : List AgentResult)
    (hres : s.agent_results = pre ++ f :: post)
    (hpre : ∀ r ∈ pre, r.success = true)
    (hf : f.success = false) :
    (_handle_error s).processing_stage = ProcessingStage.ERROR ∧
    (_handle_error s).messages = s.messages ++ [aggregated_error_message s.errors] ∧
    (∀ e ∈ s.errors, e.data <:+: (aggregated_error_message s.errors).data) ∧
    (_create_error_response s t).failed_agent = some f.agent_name ∧
    (_create_error_response s t).last_successful_agent =
      pre.getLast?.elim none (fun r => some r.agent_name) ∧
    (_create_error_response s t).errors = s.errors := by
  have hfp := find_failure_point_eq pre none f post hpre hf
  refine ⟨rfl, rfl, ?_, ?_, ?_, rfl⟩
  · intro e he
    exact aggregated_error_message_contains s.errors e he
  · simp [_create_error_response, hres, hfp]
  · simp [_create_error_response, hres, hfp]

/-- A successful skill-extraction AgentResult fixture. -/
def res1 : AgentResult :=
  { agent_name := "SkillExtractionAgent"
    execution_time := 2
    success := true
    output_data := []
    error_message := none
    metadata := { llm_provider := "openai", llm_model := "gpt-4.1", timestamp := 1 } }

/-- A failed question-generation AgentResult fixture. -/
def res2 : AgentResult :=
  { agent_name := "QuestionGenerationAgent"
    execution_time := 3
    success := false
    output_data := []
    error_message := some "QuestionGenerationAgent execution failed: boom"
    metadata := { llm_provider := "openai", llm_model := "gpt-4.1", timestamp := 4 } }

/-- A workflow state fixture that failed at question generation. -/
def failed_state : MultiAgentInterviewState :=
  { state0 with
    agent_results := [res1, res2]
    errors := ["Question generation failed: boom"] }

/-- Witness for the error aggregation theorem at the concrete failed
state: the failed agent is QuestionGenerationAgent and the last
successful one is SkillExtractionAgent. -/
theorem error_state_aggregation_witness :
    (_handle_error failed_state).processing_stage = ProcessingStage.ERROR ∧
    (_handle_error failed_state).messages = failed_state.messages ++
      [aggregated_error_message failed_state.errors] ∧
    (∀ e ∈ failed_state.errors,
      e.data <:+: (aggregated_error_message failed_state.errors).data) ∧
    (_create_error_response failed_state 9).failed_agent = some res2.agent_name ∧
    (_create_error_response failed_state 9).last_successful_agent =
      [res1].getLast?.elim none (fun r => some r.agent_name) ∧
    (_create_error_response failed_state 9).errors = failed_state.errors :=
  error_state_aggregation failed_state 9 [res1] res2 [] rfl
    (by intro r hr; simp at hr; subst hr; rfl) rfl

/-- C10: the deterministic keyword-heuristic fallback evaluation gives
each sub-score a value in three-or-four, sets the overall quality to
the floor of the mean of the four sub-scores — hence at least 3 — and
therefore always approves the question. -/
theorem fallback_evaluation_always_approves (question : TechnicalQuestion)
    (skill : ExtractedSkill) :
    ((_create_fallback_evaluation question skill).technical_depth_score = 3 ∨
      (_create_fallback_evaluation question skill).technical_depth_score = 4) ∧
    ((_create_fallback_evaluation question skill).relevance_score = 3 ∨
      (_create_fallback_evaluation question skill).relevance_score = 4) ∧
    ((_create_fallback_evaluation question skill).difficulty_appropriateness = 3 ∨
      (_create_fallback_evaluation question skill).difficulty_appropriateness = 4) ∧
    ((_create_fallback_evaluation question skill).non_generic_score = 3 ∨
      (_create_fallback_evaluation question skill).non_generic_score = 4) ∧
    (_create_fallback_evaluation question skill).overall_quality =
      ((_create_fallback_evaluation question skill).technical_depth_score +
        (_create_fallback_evaluation question skill).relevance_score +
        (_create_fallback_evaluation question skill).difficulty_appropriateness +
        (_create_fallback_evaluation question skill).non_generic_score) / 4 ∧
    3 ≤ (_create_fallback_evaluation question skill).overall_quality ∧
    (_create_fallback_evaluation question skill).approved = true := by
  simp only [_create_fallback_evaluation]
  split <;> split <;> split <;> split <;> simp

end Rubri
